import Mathlib

/-!
# Verification of the celaris-cli development-mode supervisor

Shallow embedding of `src/functions.js` (the `dev` command supervisor):
the build pipeline (`runBuildCommands`, the command-list construction in
`buildAndStartCpp`), the native-process launcher, the debounced change
watcher, the `runDev` session controller, and the `cleanUp` signal handler.

External effects (child-process exit codes, whether the native executable
can be started, whether the Vite server becomes reachable) are supplied by
explicit environment records, and each modelled operation also returns the
trace of observable actions it performed, so that ordering properties can
be stated.
-/

namespace Celaris

/-- A build step: a command name with its argument list
(`{ cmd, args }` objects pushed into `buildCommands` in `functions.js`). -/
structure Command where
  cmd : String
  args : List String
deriving DecidableEq, Repr

/-- `{ cmd: 'cmake', args: ['-S', '.', '-B', './src-celaris/build'] }`
(functions.js line 54): the configure step. -/
def configureCmd : Command :=
  ⟨"cmake", ["-S", ".", "-B", "./src-celaris/build"]⟩

/-- `{ cmd: 'cmake', args: ['--build', './src-celaris/build', '--config', 'Debug'] }`
(functions.js line 55): the compile step. -/
def compileCmd : Command :=
  ⟨"cmake", ["--build", "./src-celaris/build", "--config", "Debug"]⟩

/-- `{ cmd: 'ctest', args: ['--test-dir', './src-celaris/build', '-C', 'Debug'] }`
(functions.js line 59): the test step. -/
def testCmd : Command :=
  ⟨"ctest", ["--test-dir", "./src-celaris/build", "-C", "Debug"]⟩

/-- CLI options for `dev` (commander: `--no-build` sets `build` to `false`,
`--no-tests` sets `tests` to `false`; both default to `true`). The source
tests them with `options.build !== false` / `options.tests !== false`. -/
structure CliOptions where
  build : Bool
  tests : Bool
deriving DecidableEq, Repr

/-- The `buildCommands` list constructed by `buildAndStartCpp`
(functions.js lines 50-61): empty when this is the first run and
`--no-build` was passed (`!firstRun || options.build !== false` is false),
otherwise configure, compile, and — unless `--no-tests` — test. -/
def buildCommandsFor (firstRun : Bool) (opts : CliOptions) : List Command :=
  if !firstRun || opts.build then
    [configureCmd, compileCmd] ++ (if opts.tests then [testCmd] else [])
  else
    []

/-- `runBuildCommands` (functions.js lines 17-31), relative to an exit-code
environment `exitCode : Command → Int` standing for the outcome of each
`spawn`ed child. It walks the list sequentially; a command whose exit code
is not `0` rejects the promise, so no later command is spawned. Returns
the list of commands actually spawned and the overall outcome
(`Except.error` carries the rejection message). -/
def runBuildCommands (exitCode : Command → Int) :
    List Command → List Command × Except String Unit
  | [] => ([], Except.ok ())
  | c :: rest =>
    if exitCode c ≠ 0 then
      ([c], Except.error (c.cmd ++ " exited with code nonzero"))
    else
      let r := runBuildCommands exitCode rest
      (c :: r.1, r.2)

/-- Whether a pipeline outcome is success (the promise chain of
`runBuildCommands` resolved rather than rejected). -/
def pipelineOk (e : Except String Unit) : Bool :=
  match e with
  | Except.ok _ => true
  | Except.error _ => false

/-- Observable actions of the supervisor, in the order they are performed. -/
inductive Action where
  /-- `cppProcess.kill()` sent to the recorded native process handle. -/
  | killCpp (pid : Nat)
  /-- a build command spawned by `runBuildCommands`. -/
  | runCmd (c : Command)
  /-- `spawn(executablePath, [], { detached: true, stdio: 'ignore' })`. -/
  | spawnExe (pathParts : List String)
  /-- `cppProcess.unref()`. -/
  | unrefCpp
  /-- `spawn('npm', ['run', 'dev'], ...)` starting the Vite server. -/
  | spawnVite (pid : Nat)
  /-- `chokidar.watch(...)` starting the change watcher. -/
  | startWatcher (wid : Nat)
  /-- `process.on('SIGINT'/'SIGTERM', cleanUp)` registration. -/
  | registerHandlers
  /-- `viteProcess.kill()`. -/
  | killVite (pid : Nat)
  /-- `watcher.close()`. -/
  | closeWatcher (wid : Nat)
  /-- `process.exit()`. -/
  | exitProc
deriving DecidableEq, Repr

/-- The platform switch of functions.js lines 72-77. -/
inductive Platform where
  | win32
  | other
deriving DecidableEq, Repr

/-- The `pathParts` of the native executable (functions.js lines 72-79):
`['.', 'src-celaris', 'build', 'bin']` plus `['Debug', 'celaris.exe']` on
Windows and `['celaris']` elsewhere, later joined by `path.join`. -/
def pathParts (p : Platform) : List String :=
  ["."] ++ ["src-celaris", "build", "bin"] ++
    (match p with
     | Platform.win32 => ["Debug", "celaris.exe"]
     | Platform.other => ["celaris"])

/-- Environment for one `buildAndStartCpp` invocation: the exit code each
build command will produce, the platform, the handle (pid) `spawn` returns
for the native executable, and whether that spawn fails to start
(executable missing/unstartable — Node delivers this asynchronously as an
`'error'` event on the returned `ChildProcess`). -/
structure BuildEnv where
  exitCode : Command → Int
  platform : Platform
  nativePid : Nat
  nativeStartFails : Bool

/-- The mutable module state touched by `buildAndStartCpp`
(functions.js lines 10, 14): the recorded native process handle and the
`firstRun` flag. -/
structure CppState where
  cppProcess : Option Nat
  firstRun : Bool
deriving DecidableEq, Repr

/-- `buildAndStartCpp` attaches no `'error'` listener to `cppProcess`
(functions.js lines 82-87 register none). -/
def cppErrorListenerAttached : Bool := false

/-- How an invocation of `buildAndStartCpp` ends. Node semantics: an
`'error'` event emitted on an `EventEmitter` with no `'error'` listener is
thrown as an uncaught exception, which terminates the Node process. -/
inductive InvocationResult where
  /-- reaches `console.log('Build and start done')` and the process lives on. -/
  | completed
  /-- a spawn `'error'` event had no listener: the controller process crashes. -/
  | crashedUnhandledErrorEvent
deriving DecidableEq, Repr

/-- `buildAndStartCpp` (functions.js lines 43-93). In order:
kill the existing native process if one is recorded (lines 46-48);
rebuild `buildCommands` from `firstRun` and the options (lines 50-61);
set `firstRun := false` (line 64); run the build commands (line 66);
on success spawn the executable detached, record the new handle and
`unref` it (lines 67-88); on failure only log (lines 89-91) — the handle
field is left as it was. Returns the new state, the action trace, and
whether the controller survives the invocation. -/
def buildAndStartCpp (env : BuildEnv) (opts : CliOptions) (s : CppState) :
    CppState × List Action × InvocationResult :=
  let killTrace : List Action :=
    match s.cppProcess with
    | some p => [Action.killCpp p]
    | none => []
  let cmds := buildCommandsFor s.firstRun opts
  let s1 : CppState := { s with firstRun := false }
  let run := runBuildCommands env.exitCode cmds
  match run.2 with
  | Except.ok _ =>
    let trace := killTrace ++ run.1.map Action.runCmd ++
      [Action.spawnExe (pathParts env.platform), Action.unrefCpp]
    let res :=
      if env.nativeStartFails && !cppErrorListenerAttached then
        InvocationResult.crashedUnhandledErrorEvent
      else
        InvocationResult.completed
    ({ s1 with cppProcess := some env.nativePid }, trace, res)
  | Except.error _ =>
    (s1, killTrace ++ run.1.map Action.runCmd, InvocationResult.completed)

/-- The build commands appearing in an action trace, in order. -/
def buildStepsOf (tr : List Action) : List Command :=
  tr.filterMap fun a =>
    match a with
    | Action.runCmd c => some c
    | _ => none

/-! ## The debounced change watcher

`watcher.on('change', ...)` (functions.js lines 149-155):

```
if (buildTimeout) clearTimeout(buildTimeout)
buildTimeout = setTimeout(() => { buildAndStartCpp() }, 500)
```

We model the event-loop timer table explicitly: each `setTimeout` call
creates a timer record with a fresh id and an absolute deadline;
`clearTimeout id` removes that timer from the pending table; a pending
timer whose deadline has passed fires (here: appends its deadline to the
list of rebuild firings) and leaves the table. Raw change events are
timestamps in milliseconds. -/

/-- A scheduled (pending) debounce timer: its `setTimeout` handle id and
the absolute time at which it will fire. -/
structure TimerRec where
  id : Nat
  deadline : Nat
deriving DecidableEq, Repr

/-- Watcher-side state: the next fresh timer id, the pending timers of the
event loop, the `buildTimeout` variable (functions.js line 13, holding the
last `setTimeout` handle), and the times at which a rebuild has fired. -/
structure WatchState where
  nextId : Nat
  pending : List TimerRec
  buildTimeout : Option Nat
  fired : List Nat
deriving DecidableEq, Repr

/-- Module state at watcher start: no pending timer, `buildTimeout = null`,
no rebuild fired yet. -/
def initWatch : WatchState :=
  ⟨0, [], none, []⟩

/-- Event-loop progress up to time `t`: every pending timer whose deadline
is at or before `t` fires (its callback runs `buildAndStartCpp`, recorded
in `fired`) and is removed from the pending table. -/
def fireDue (t : Nat) (s : WatchState) : WatchState :=
  { s with
    pending := s.pending.filter fun r => !(r.deadline ≤ t)
    fired := s.fired ++ (s.pending.filter fun r => r.deadline ≤ t).map TimerRec.deadline }

/-- The `'change'` handler body at time `t`:
`if (buildTimeout) clearTimeout(buildTimeout)` then
`buildTimeout = setTimeout(..., 500)`, i.e. cancel the timer whose handle
is stored in `buildTimeout` (a no-op if it already fired) and schedule a
fresh timer `500` ms from now, storing its handle. -/
def onChange (t : Nat) (s : WatchState) : WatchState :=
  let s1 :=
    match s.buildTimeout with
    | some tid => { s with pending := s.pending.filter fun r => r.id ≠ tid }
    | none => s
  { s1 with
    pending := s1.pending ++ [⟨s1.nextId, t + 500⟩]
    buildTimeout := some s1.nextId
    nextId := s1.nextId + 1 }

/-- One raw change event observed at time `t`: the event loop first runs
any timer already due, then delivers the change event to the handler. -/
def stepEvent (s : WatchState) (t : Nat) : WatchState :=
  onChange t (fireDue t s)

/-- Process a whole sequence of raw change events (timestamps in
ascending order of arrival) from the initial watcher state. -/
def runEvents (events : List Nat) : WatchState :=
  events.foldl stepEvent initWatch

/-- Let time run to infinity with no further event: every still-pending
timer fires. -/
def flushTimers (s : WatchState) : WatchState :=
  { s with pending := [], fired := s.fired ++ s.pending.map TimerRec.deadline }

/-- Two consecutive raw change events are in burst relation when the
second arrives no earlier than the first and strictly less than the
500 ms debounce window after it. -/
def burstRel (a b : Nat) : Prop :=
  a ≤ b ∧ b < a + 500

instance : DecidableRel burstRel := fun a b =>
  inferInstanceAs (Decidable (a ≤ b ∧ b < a + 500))

/-- Watcher-state invariant: at most one debounce timer is pending, and
any pending timer is the one whose handle the `buildTimeout` variable
holds (so the handler's `clearTimeout` always cancels it). -/
def WatchInv (s : WatchState) : Prop :=
  s.pending.length ≤ 1 ∧ ∀ r ∈ s.pending, s.buildTimeout = some r.id

/-! ## The dev session controller -/

/-- Environment for one `runDev` session: whether `wait-on` observes the
Vite server within its 30 s timeout, the pid `spawn` returns for the Vite
server, the id of the chokidar watcher, the build environment of the
initial `buildAndStartCpp`, and the CLI options. -/
structure DevEnv where
  viteReady : Bool
  vitePid : Nat
  watcherId : Nat
  buildEnv : BuildEnv
  opts : CliOptions

/-- The module-level state of functions.js (lines 8-14) as `runDev`
leaves it: the Vite process handle, the watcher handle, the native-process
state, and whether the SIGINT/SIGTERM handlers have been registered. -/
structure DevState where
  viteProcess : Option Nat
  watcher : Option Nat
  cpp : CppState
  handlersRegistered : Bool
deriving DecidableEq, Repr

/-- The fatal startup failure: `waitOn` rejects after its 30 s timeout,
so the `await` at functions.js line 130 throws out of `runDev`. -/
inductive StartupError where
  | viteTimeout
deriving DecidableEq, Repr

/-- `runDev` (functions.js lines 119-162): spawn the Vite server, await
its readiness (timeout 30 s — a rejection aborts the function right
there), run the initial `buildAndStartCpp` on the initial module state
(`cppProcess = null`, `firstRun = true`), start the chokidar watcher, and
finally register `cleanUp` for SIGINT and SIGTERM. Returns the outcome
and the trace of actions actually performed. -/
def runDev (env : DevEnv) : Except StartupError DevState × List Action :=
  let viteTrace := [Action.spawnVite env.vitePid]
  if env.viteReady then
    let b := buildAndStartCpp env.buildEnv env.opts ⟨none, true⟩
    (Except.ok
      { viteProcess := some env.vitePid
        watcher := some env.watcherId
        cpp := b.1
        handlersRegistered := true },
      viteTrace ++ b.2.1 ++ [Action.startWatcher env.watcherId, Action.registerHandlers])
  else
    (Except.error StartupError.viteTimeout, viteTrace)

/-- The phases of a `dev` session, in source order of `runDev`. -/
inductive Phase where
  /-- spawning the Vite server (functions.js line 126). -/
  | starting
  /-- awaiting `waitOn` (line 130). -/
  | waitingForServer
  /-- awaiting the initial `buildAndStartCpp` (line 135). -/
  | building
  /-- creating the chokidar watcher and its handlers (lines 145-158). -/
  | watcherSetup
  /-- after `runDev` returned: watching, idle until a change or signal. -/
  | running
deriving DecidableEq, Repr

/-- Whether the SIGINT/SIGTERM handlers are registered during a given
phase: `process.on('SIGINT', cleanUp)` and `process.on('SIGTERM', cleanUp)`
are the last two statements of `runDev` (functions.js lines 160-161),
after the watcher is created, so only the `running` phase has them. -/
def handlersRegisteredAt : Phase → Bool
  | Phase.running => true
  | _ => false

/-- What a SIGINT/SIGTERM delivery does to the controller. -/
inductive SignalResponse where
  /-- the registered handler `cleanUp` runs. -/
  | runsCleanUp
  /-- no handler registered: Node's default disposition terminates the
  process with no cleanup code running. -/
  | defaultTermination
deriving DecidableEq, Repr

/-- Effect of a termination signal arriving in phase `p`: the `cleanUp`
handler runs only if it has been registered by then. -/
def onTermSignal (p : Phase) : SignalResponse :=
  if handlersRegisteredAt p then SignalResponse.runsCleanUp
  else SignalResponse.defaultTermination

/-! ## The cleanUp handler -/

/-- A JavaScript exception escaping a call inside `cleanUp`. -/
inductive JsError where
  /-- a method call on `null` (`viteProcess.kill()` / `watcher.close()`
  with the variable still `null`). -/
  | typeErrorNull
  /-- an exception raised by the n-th cleanup primitive itself. -/
  | raised (n : Nat)
deriving DecidableEq, Repr

/-- Hypothetical behaviour of the three cleanup primitives: whether each
call raises a synchronous exception. In the actual Node API,
`ChildProcess.kill()` reports delivery failure through its boolean return
value (and an async event), and `watcher.close()` returns a promise, so
the no-raise instantiation `noThrowEnv` reflects the real primitives; the
raising instantiations exercise what `cleanUp` would do if a call threw. -/
structure CleanupEnv where
  killCppThrows : Bool
  killViteThrows : Bool
  watcherCloseThrows : Bool
  /-- whether `cppProcess.kill()` actually delivers its signal — its
  boolean result, which `cleanUp` discards. -/
  killCppDelivered : Bool
  /-- whether `viteProcess.kill()` actually delivers its signal. -/
  killViteDelivered : Bool
deriving DecidableEq, Repr

/-- The real primitives: no synchronous exceptions. -/
def noThrowEnv : CleanupEnv :=
  ⟨false, false, false, true, true⟩

/-- `cleanUp` (functions.js lines 99-106):

```
if (cppProcess) cppProcess.kill()
viteProcess.kill()
watcher.close()
process.exit()
```

Straight-line, with no `try`/`catch`: the calls run in this order, each
return value is discarded, and an exception thrown by any call aborts the
rest. Returns the actions attempted, and the escaping exception if one
was thrown (`none` means `process.exit()` was reached). -/
def cleanUp (cenv : CleanupEnv) (s : DevState) : List Action × Option JsError :=
  let part1 : List Action × Option JsError :=
    match s.cpp.cppProcess with
    | some p =>
      if cenv.killCppThrows then ([Action.killCpp p], some (JsError.raised 0))
      else ([Action.killCpp p], none)
    | none => ([], none)
  match part1.2 with
  | some e => (part1.1, some e)
  | none =>
    match s.viteProcess with
    | none => (part1.1, some JsError.typeErrorNull)
    | some vp =>
      if cenv.killViteThrows then
        (part1.1 ++ [Action.killVite vp], some (JsError.raised 1))
      else
        match s.watcher with
        | none => (part1.1 ++ [Action.killVite vp], some JsError.typeErrorNull)
        | some w =>
          if cenv.watcherCloseThrows then
            (part1.1 ++ [Action.killVite vp, Action.closeWatcher w],
             some (JsError.raised 2))
          else
            (part1.1 ++ [Action.killVite vp, Action.closeWatcher w, Action.exitProc],
             none)

/-! ## Helper lemmas on the build pipeline -/

/-- Complete case analysis of `runBuildCommands`: either every command
exits 0 and all of them are spawned with an `ok` outcome, or the list
splits as `l₁ ++ c :: l₂` around the first failing command `c`, exactly
`l₁ ++ [c]` is spawned and the outcome is the rejection for `c`. -/
theorem runBuildCommands_spec (ex : Command → Int) :
    ∀ l : List Command,
      ((∀ c ∈ l, ex c = 0) ∧ runBuildCommands ex l = (l, Except.ok ())) ∨
      (∃ l₁ c l₂, l = l₁ ++ c :: l₂ ∧ (∀ d ∈ l₁, ex d = 0) ∧ ex c ≠ 0 ∧
        (runBuildCommands ex l).1 = l₁ ++ [c] ∧
        (runBuildCommands ex l).2 =
          Except.error (c.cmd ++ " exited with code nonzero"))
  | [] => Or.inl ⟨by simp, by simp [runBuildCommands]⟩
  | c :: rest => by
    by_cases h : ex c = 0
    · rcases runBuildCommands_spec ex rest with ⟨hall, heq⟩ | ⟨l₁, d, l₂, hsp, h₁, hd, he, hr⟩
      · exact Or.inl ⟨by simpa [h] using hall, by simp [runBuildCommands, h, heq]⟩
      · refine Or.inr ⟨c :: l₁, d, l₂, by simp [hsp], ?_, hd, ?_, ?_⟩
        · intro d' hd'
          rcases List.mem_cons.mp hd' with hd' | hd'
          · simpa [hd'] using h
          · exact h₁ d' hd'
        · simp [runBuildCommands, h, he]
        · simp [runBuildCommands, h, hr]
    · refine Or.inr ⟨[], c, rest, by simp, by simp, h, ?_, ?_⟩
      · simp [runBuildCommands, h]
      · simp [runBuildCommands, h]

/-- The spawned commands are an initial segment of the command list. -/
theorem runBuildCommands_executed_seg (ex : Command → Int) (l : List Command) :
    ∃ t, (runBuildCommands ex l).1 ++ t = l := by
  rcases runBuildCommands_spec ex l with ⟨_, heq⟩ | ⟨l₁, c, l₂, hsp, _, _, he, _⟩
  · exact ⟨[], by simp [heq]⟩
  · exact ⟨l₂, by rw [he, hsp]; simp⟩

/-- The pipeline reports success exactly when every command exits 0. -/
theorem runBuildCommands_ok_iff (ex : Command → Int) (l : List Command) :
    (runBuildCommands ex l).2 = Except.ok () ↔ ∀ c ∈ l, ex c = 0 := by
  rcases runBuildCommands_spec ex l with ⟨hall, heq⟩ | ⟨l₁, c, l₂, hsp, _, hc, _, hr⟩
  · exact iff_of_true (by simp [heq]) hall
  · simp only [hr]
    constructor
    · intro h
      exact absurd h (by simp)
    · intro h
      exact absurd (h c (by simp [hsp])) hc

/-- Every spawned command except possibly the last one exited 0: a step
is only started after the previous one reported success. -/
theorem runBuildCommands_dropLast_ok (ex : Command → Int) (l : List Command) :
    ∀ c ∈ (runBuildCommands ex l).1.dropLast, ex c = 0 := by
  rcases runBuildCommands_spec ex l with ⟨hall, heq⟩ | ⟨l₁, c, l₂, _, h₁, _, he, _⟩
  · intro c hc
    exact hall c (List.dropLast_subset l (by simpa [heq] using hc))
  · intro d hd
    rw [he, List.dropLast_concat] at hd
    exact h₁ d hd

/-- When the pipeline fails, the last spawned command is the one that
exited nonzero (its failure aborted all remaining steps). -/
theorem runBuildCommands_fail_last (ex : Command → Int) (l : List Command)
    (h : (runBuildCommands ex l).2 ≠ Except.ok ()) :
    ∃ c, (runBuildCommands ex l).1.getLast? = some c ∧ ex c ≠ 0 := by
  rcases runBuildCommands_spec ex l with ⟨_, heq⟩ | ⟨l₁, c, l₂, _, _, hc, he, _⟩
  · exact absurd (by simp [heq]) h
  · exact ⟨c, by simp [he], hc⟩

/-- On a non-empty command list, the first command is always spawned. -/
theorem runBuildCommands_head_mem (ex : Command → Int) (c : Command)
    (l : List Command) : c ∈ (runBuildCommands ex (c :: l)).1 := by
  by_cases h : ex c = 0 <;> simp [runBuildCommands, h]

/-! ## Helper lemmas on buildAndStartCpp -/

/-- `buildStepsOf` distributes over trace concatenation. -/
theorem buildStepsOf_append (a b : List Action) :
    buildStepsOf (a ++ b) = buildStepsOf a ++ buildStepsOf b := by
  simp [buildStepsOf]

/-- The build steps of a pure run-command trace are those commands. -/
theorem buildStepsOf_map_runCmd (l : List Command) :
    buildStepsOf (l.map Action.runCmd) = l := by
  induction l with
  | nil => rfl
  | cons c rest ih => simpa [buildStepsOf] using ih

/-- A kill action contributes no build step. -/
theorem buildStepsOf_killCpp (p : Nat) : buildStepsOf [Action.killCpp p] = [] := rfl

/-- A leading kill action contributes no build step. -/
theorem buildStepsOf_cons_killCpp (p : Nat) (tr : List Action) :
    buildStepsOf (Action.killCpp p :: tr) = buildStepsOf tr := by
  simp [buildStepsOf]

/-- The empty trace contributes no build step. -/
theorem buildStepsOf_nil : buildStepsOf [] = [] := rfl

/-- The spawn-and-unref tail of a successful invocation contributes no
build step. -/
theorem buildStepsOf_spawnTail (parts : List String) :
    buildStepsOf [Action.spawnExe parts, Action.unrefCpp] = [] := rfl

/-- The build steps in the trace of one `buildAndStartCpp` invocation are
exactly the commands its pipeline spawned. -/
theorem buildAndStartCpp_steps (env : BuildEnv) (opts : CliOptions) (s : CppState) :
    buildStepsOf (buildAndStartCpp env opts s).2.1 =
      (runBuildCommands env.exitCode (buildCommandsFor s.firstRun opts)).1 := by
  cases hcp : s.cppProcess <;>
  cases hr : (runBuildCommands env.exitCode (buildCommandsFor s.firstRun opts)).2 <;>
    simp [buildAndStartCpp, hcp, hr, buildStepsOf_append, buildStepsOf_map_runCmd,
      buildStepsOf_killCpp, buildStepsOf_nil, buildStepsOf_spawnTail,
      buildStepsOf_cons_killCpp]

/-- `firstRun` is `false` after every invocation, whatever the outcome
(functions.js line 64 runs before the build is awaited). -/
theorem buildAndStartCpp_firstRun (env : BuildEnv) (opts : CliOptions) (s : CppState) :
    (buildAndStartCpp env opts s).1.firstRun = false := by
  unfold buildAndStartCpp
  cases hr : (runBuildCommands env.exitCode (buildCommandsFor s.firstRun opts)).2 <;> simp [hr]

/-- When a native process handle is recorded, the kill sent to it is the
first action of the invocation — before any build step and before the new
instance is spawned and recorded. -/
theorem buildAndStartCpp_kill_first (env : BuildEnv) (opts : CliOptions)
    (s : CppState) (p : Nat) (hp : s.cppProcess = some p) :
    (buildAndStartCpp env opts s).2.1.head? = some (Action.killCpp p) := by
  unfold buildAndStartCpp
  cases hr : (runBuildCommands env.exitCode (buildCommandsFor s.firstRun opts)).2 <;>
    simp [hp, hr]

/-- On pipeline success the freshly spawned handle replaces the old
reference; on pipeline failure the handle field is left unchanged. -/
theorem buildAndStartCpp_handle (env : BuildEnv) (opts : CliOptions) (s : CppState) :
    ((runBuildCommands env.exitCode (buildCommandsFor s.firstRun opts)).2 = Except.ok () →
      (buildAndStartCpp env opts s).1.cppProcess = some env.nativePid) ∧
    ((runBuildCommands env.exitCode (buildCommandsFor s.firstRun opts)).2 ≠ Except.ok () →
      (buildAndStartCpp env opts s).1.cppProcess = s.cppProcess) := by
  unfold buildAndStartCpp
  cases hr : (runBuildCommands env.exitCode (buildCommandsFor s.firstRun opts)).2 with
  | ok v => simp [hr]
  | error e => simp [hr]

/-- Success of the pipeline outcome, as a proposition. -/
theorem pipelineOk_true_iff (e : Except String Unit) :
    pipelineOk e = true ↔ e = Except.ok () := by
  cases e with
  | ok v => cases v; simp [pipelineOk]
  | error s => simp [pipelineOk]

/-- Failure of the pipeline outcome, as a proposition. -/
theorem pipelineOk_false_iff (e : Except String Unit) :
    pipelineOk e = false ↔ e ≠ Except.ok () := by
  cases e with
  | ok v => cases v; simp [pipelineOk]
  | error s => simp [pipelineOk]

/-! ## Claim theorems -/

/-- C1: if `skipInitialBuild` (`--no-build`) is requested, the very first
`buildAndStartCpp` invocation of the session runs zero build steps; the
`firstRun` flag is `false` after that invocation regardless of its
outcome; every subsequent invocation ignores the skip flag and has the
full configure+compile(+test) command list, whose first step is actually
spawned; and the flag stays `false`. -/
theorem c1_skip_initial_build_once (env1 env2 : BuildEnv) (opts : CliOptions)
    (s0 : CppState) (hskip : opts.build = false) (hfirst : s0.firstRun = true) :
    buildStepsOf (buildAndStartCpp env1 opts s0).2.1 = [] ∧
    (buildAndStartCpp env1 opts s0).1.firstRun = false ∧
    buildCommandsFor (buildAndStartCpp env1 opts s0).1.firstRun opts =
      [configureCmd, compileCmd] ++ (if opts.tests then [testCmd] else []) ∧
    configureCmd ∈
      buildStepsOf (buildAndStartCpp env2 opts (buildAndStartCpp env1 opts s0).1).2.1 ∧
    (buildAndStartCpp env2 opts (buildAndStartCpp env1 opts s0).1).1.firstRun = false := by
  have hempty : buildCommandsFor s0.firstRun opts = [] := by
    simp [buildCommandsFor, hskip, hfirst]
  have hfull : buildCommandsFor false opts =
      configureCmd :: ([compileCmd] ++ (if opts.tests then [testCmd] else [])) := by
    simp [buildCommandsFor]
  refine ⟨?_, buildAndStartCpp_firstRun env1 opts s0, ?_, ?_,
    buildAndStartCpp_firstRun env2 opts _⟩
  · rw [buildAndStartCpp_steps, hempty]
    simp [runBuildCommands]
  · rw [buildAndStartCpp_firstRun]
    simpa using hfull
  · rw [buildAndStartCpp_steps, buildAndStartCpp_firstRun, hfull]
    exact runBuildCommands_head_mem env2.exitCode configureCmd _

/-- Witness for C1 at a concrete session: `--no-build`, tests enabled,
fresh state, first build environment failing every command (so "regardless
of outcome" is exercised), second succeeding. -/
theorem c1_witness :
    (CliOptions.mk false true).build = false ∧
    (CppState.mk none true).firstRun = true ∧
    (buildStepsOf (buildAndStartCpp ⟨fun _ => 1, Platform.other, 4, false⟩
        ⟨false, true⟩ ⟨none, true⟩).2.1 = [] ∧
      (buildAndStartCpp ⟨fun _ => 1, Platform.other, 4, false⟩
        ⟨false, true⟩ ⟨none, true⟩).1.firstRun = false ∧
      buildCommandsFor (buildAndStartCpp ⟨fun _ => 1, Platform.other, 4, false⟩
          ⟨false, true⟩ ⟨none, true⟩).1.firstRun ⟨false, true⟩ =
        [configureCmd, compileCmd] ++
          (if (CliOptions.mk false true).tests then [testCmd] else []) ∧
      configureCmd ∈
        buildStepsOf (buildAndStartCpp ⟨fun _ => 0, Platform.other, 5, false⟩
          ⟨false, true⟩ (buildAndStartCpp ⟨fun _ => 1, Platform.other, 4, false⟩
            ⟨false, true⟩ ⟨none, true⟩).1).2.1 ∧
      (buildAndStartCpp ⟨fun _ => 0, Platform.other, 5, false⟩
        ⟨false, true⟩ (buildAndStartCpp ⟨fun _ => 1, Platform.other, 4, false⟩
          ⟨false, true⟩ ⟨none, true⟩).1).1.firstRun = false) :=
  ⟨rfl, rfl,
    c1_skip_initial_build_once ⟨fun _ => 1, Platform.other, 4, false⟩
      ⟨fun _ => 0, Platform.other, 5, false⟩ ⟨false, true⟩ ⟨none, true⟩ rfl rfl⟩

/-- C3: whenever a native process handle is recorded, an invocation of the
launcher first sends it the termination signal (the kill is the very first
action of the trace, before the new instance is spawned and recorded); on
pipeline success the new handle replaces the old reference, and on
pipeline failure the single tracked handle is still the old one — at no
point are two current handles tracked. -/
theorem c3_single_handle (env : BuildEnv) (opts : CliOptions) (s : CppState)
    (p : Nat) (hp : s.cppProcess = some p) :
    (buildAndStartCpp env opts s).2.1.head? = some (Action.killCpp p) ∧
    (pipelineOk (runBuildCommands env.exitCode (buildCommandsFor s.firstRun opts)).2 = true →
      (buildAndStartCpp env opts s).1.cppProcess = some env.nativePid) ∧
    (pipelineOk (runBuildCommands env.exitCode (buildCommandsFor s.firstRun opts)).2 = false →
      (buildAndStartCpp env opts s).1.cppProcess = some p) := by
  refine ⟨buildAndStartCpp_kill_first env opts s p hp, ?_, ?_⟩
  · intro h
    exact (buildAndStartCpp_handle env opts s).1 ((pipelineOk_true_iff _).mp h)
  · intro h
    rw [(buildAndStartCpp_handle env opts s).2 ((pipelineOk_false_iff _).mp h), hp]

/-- Witness for C3 at a concrete invocation with a recorded handle `7`. -/
theorem c3_witness :
    (CppState.mk (some 7) false).cppProcess = some 7 ∧
    ((buildAndStartCpp ⟨fun _ => 0, Platform.other, 4, false⟩ ⟨true, true⟩
        ⟨some 7, false⟩).2.1.head? = some (Action.killCpp 7) ∧
      (pipelineOk (runBuildCommands (fun _ => (0 : Int))
          (buildCommandsFor false ⟨true, true⟩)).2 = true →
        (buildAndStartCpp ⟨fun _ => 0, Platform.other, 4, false⟩ ⟨true, true⟩
          ⟨some 7, false⟩).1.cppProcess = some 4) ∧
      (pipelineOk (runBuildCommands (fun _ => (0 : Int))
          (buildCommandsFor false ⟨true, true⟩)).2 = false →
        (buildAndStartCpp ⟨fun _ => 0, Platform.other, 4, false⟩ ⟨true, true⟩
          ⟨some 7, false⟩).1.cppProcess = some 7)) :=
  ⟨rfl, c3_single_handle ⟨fun _ => 0, Platform.other, 4, false⟩ ⟨true, true⟩
    ⟨some 7, false⟩ 7 rfl⟩

/-- C4: a non-skipped pipeline invocation builds exactly the command list
configure, compile, then test iff tests are not skipped; the spawned
commands are an initial segment of that list (fixed order); the pipeline
succeeds iff every command exits 0; every spawned command except possibly
the last exited 0 (a step starts only after the previous one succeeded);
and on failure the last spawned command is the failing one — nothing after
it was attempted. -/
theorem c4_pipeline_order (ex : Command → Int) (firstRun : Bool) (opts : CliOptions)
    (hns : firstRun = false ∨ opts.build = true) :
    buildCommandsFor firstRun opts =
      [configureCmd, compileCmd] ++ (if opts.tests then [testCmd] else []) ∧
    (∃ t, (runBuildCommands ex (buildCommandsFor firstRun opts)).1 ++ t =
      buildCommandsFor firstRun opts) ∧
    (pipelineOk (runBuildCommands ex (buildCommandsFor firstRun opts)).2 = true ↔
      ∀ c ∈ buildCommandsFor firstRun opts, ex c = 0) ∧
    (∀ c ∈ (runBuildCommands ex (buildCommandsFor firstRun opts)).1.dropLast, ex c = 0) ∧
    (pipelineOk (runBuildCommands ex (buildCommandsFor firstRun opts)).2 = false →
      ∃ c, (runBuildCommands ex (buildCommandsFor firstRun opts)).1.getLast? = some c ∧
        ex c ≠ 0) := by
  have hcmds : buildCommandsFor firstRun opts =
      [configureCmd, compileCmd] ++ (if opts.tests then [testCmd] else []) := by
    rcases hns with h | h <;> simp [buildCommandsFor, h]
  refine ⟨hcmds, runBuildCommands_executed_seg ex _, ?_, ?_, ?_⟩
  · rw [pipelineOk_true_iff]
    exact runBuildCommands_ok_iff ex _
  · exact runBuildCommands_dropLast_ok ex _
  · intro h
    exact runBuildCommands_fail_last ex _ ((pipelineOk_false_iff _).mp h)

/-- Witness for C4 with the compile step failing: configure runs,
compile fails, the test step is never spawned. -/
theorem c4_witness :
    ((false = false) ∨ (CliOptions.mk true true).build = true) ∧
    (buildCommandsFor false ⟨true, true⟩ =
      [configureCmd, compileCmd] ++
        (if (CliOptions.mk true true).tests then [testCmd] else []) ∧
    (∃ t, (runBuildCommands (fun c => if c = compileCmd then 1 else 0)
        (buildCommandsFor false ⟨true, true⟩)).1 ++ t =
      buildCommandsFor false ⟨true, true⟩) ∧
    (pipelineOk (runBuildCommands (fun c => if c = compileCmd then 1 else 0)
        (buildCommandsFor false ⟨true, true⟩)).2 = true ↔
      ∀ c ∈ buildCommandsFor false ⟨true, true⟩,
        (if c = compileCmd then (1 : Int) else 0) = 0) ∧
    (∀ c ∈ (runBuildCommands (fun c => if c = compileCmd then 1 else 0)
        (buildCommandsFor false ⟨true, true⟩)).1.dropLast,
      (if c = compileCmd then (1 : Int) else 0) = 0) ∧
    (pipelineOk (runBuildCommands (fun c => if c = compileCmd then 1 else 0)
        (buildCommandsFor false ⟨true, true⟩)).2 = false →
      ∃ c, (runBuildCommands (fun c => if c = compileCmd then 1 else 0)
          (buildCommandsFor false ⟨true, true⟩)).1.getLast? = some c ∧
        (if c = compileCmd then (1 : Int) else 0) ≠ 0)) :=
  ⟨Or.inl rfl,
    c4_pipeline_order (fun c => if c = compileCmd then 1 else 0) false
      ⟨true, true⟩ (Or.inl rfl)⟩

/-- Counterexample to C5 as stated: a concrete rebuild whose pipeline
fails (every command exits 1) while a native process `7` is recorded —
the pipeline fails, yet the kill signal was sent to process `7` at the
start of the invocation, so the previous native process is NOT left
running. -/
theorem c5_counterexample :
    pipelineOk (runBuildCommands (fun _ => (1 : Int))
      (buildCommandsFor false ⟨true, true⟩)).2 = false ∧
    Action.killCpp 7 ∈ (buildAndStartCpp ⟨fun _ => 1, Platform.other, 9, false⟩
      ⟨true, true⟩ ⟨some 7, false⟩).2.1 := by
  decide

/-- C5 amended: when the pipeline of an invocation fails, the recorded
handle is left unchanged (the old reference is not replaced) — but the
previously recorded native process has nevertheless already been sent its
termination signal at the start of the invocation, before the pipeline
ran. -/
theorem c5_failed_build_keeps_handle (env : BuildEnv) (opts : CliOptions)
    (s : CppState)
    (hfail : pipelineOk (runBuildCommands env.exitCode
      (buildCommandsFor s.firstRun opts)).2 = false) :
    (buildAndStartCpp env opts s).1.cppProcess = s.cppProcess ∧
    ∀ p, s.cppProcess = some p →
      Action.killCpp p ∈ (buildAndStartCpp env opts s).2.1 := by
  refine ⟨(buildAndStartCpp_handle env opts s).2 ((pipelineOk_false_iff _).mp hfail), ?_⟩
  intro p hp
  exact List.mem_of_mem_head?
    (Option.mem_def.mpr (buildAndStartCpp_kill_first env opts s p hp))

/-- Witness for the amended C5 at the counterexample's concrete input. -/
theorem c5_witness :
    pipelineOk (runBuildCommands (fun _ => (1 : Int))
      (buildCommandsFor (CppState.mk (some 7) false).firstRun ⟨true, true⟩)).2 = false ∧
    ((buildAndStartCpp ⟨fun _ => 1, Platform.other, 9, false⟩ ⟨true, true⟩
        ⟨some 7, false⟩).1.cppProcess = (CppState.mk (some 7) false).cppProcess ∧
      ∀ p, (CppState.mk (some 7) false).cppProcess = some p →
        Action.killCpp p ∈ (buildAndStartCpp ⟨fun _ => 1, Platform.other, 9, false⟩
          ⟨true, true⟩ ⟨some 7, false⟩).2.1) :=
  ⟨by decide,
    c5_failed_build_keeps_handle ⟨fun _ => 1, Platform.other, 9, false⟩
      ⟨true, true⟩ ⟨some 7, false⟩ (by decide)⟩

/-! ## Helper lemmas on the debounced watcher -/

/-- Letting due timers fire preserves the single-pending-timer invariant. -/
theorem watchInv_fireDue (t : Nat) (s : WatchState) (h : WatchInv s) :
    WatchInv (fireDue t s) := by
  constructor
  · exact le_trans (List.length_filter_le _ _) h.1
  · intro r hr
    exact h.2 r (List.mem_of_mem_filter hr)

/-- When every pending timer's handle is the one held in `buildTimeout`,
the `'change'` handler leaves exactly the freshly scheduled timer pending:
`clearTimeout` cancels the old one (or there was none). -/
theorem onChange_shape (t : Nat) (s : WatchState)
    (h : ∀ r ∈ s.pending, s.buildTimeout = some r.id) :
    onChange t s =
      { nextId := s.nextId + 1
        pending := [⟨s.nextId, t + 500⟩]
        buildTimeout := some s.nextId
        fired := s.fired } := by
  unfold onChange
  cases hb : s.buildTimeout with
  | none =>
    have hemp : s.pending = [] := by
      cases hp : s.pending with
      | nil => rfl
      | cons r rest =>
        have hr := h r (by simp [hp])
        rw [hb] at hr
        exact absurd hr (by simp)
    simp [hemp]
  | some tid =>
    have hall : ∀ r ∈ s.pending, r.id = tid := by
      intro r hr
      have hid := h r hr
      rw [hb] at hid
      injection hid with hh
      exact hh.symm
    simp
    exact hall

/-- The `'change'` handler preserves the invariant: it cancels the pending
timer (if any) before scheduling the new one, so exactly one timer is
pending afterwards. -/
theorem watchInv_onChange (t : Nat) (s : WatchState) (h : WatchInv s) :
    WatchInv (onChange t s) := by
  rw [onChange_shape t s h.2]
  exact ⟨by simp, by simp⟩

/-- One raw change event preserves the invariant. -/
theorem watchInv_stepEvent (s : WatchState) (t : Nat) (h : WatchInv s) :
    WatchInv (stepEvent s t) :=
  watchInv_onChange t _ (watchInv_fireDue t s h)

/-- Processing any event sequence from an invariant state preserves the
invariant. -/
theorem watchInv_foldl :
    ∀ (events : List Nat) (s : WatchState), WatchInv s →
      WatchInv (events.foldl stepEvent s)
  | [], _, h => h
  | t :: rest, s, h =>
    watchInv_foldl rest (stepEvent s t) (watchInv_stepEvent s t h)

/-- The invariant holds after any sequence of raw change events. -/
theorem watchInv_runEvents (events : List Nat) : WatchInv (runEvents events) :=
  watchInv_foldl events initWatch ⟨by simp [initWatch], by simp [initWatch]⟩

/-- Core burst computation: starting right after an event at time `t`
scheduled timer `n` for `t + 500`, a further burst of events each within
the window of its predecessor repeatedly cancels and reschedules the
single timer without any firing: afterwards the only pending timer is for
500 ms after the last event and nothing has fired meanwhile. -/
theorem burst_foldl :
    ∀ (es : List Nat) (t n : Nat) (f : List Nat),
      List.Chain' burstRel (t :: es) →
      es.foldl stepEvent ⟨n + 1, [⟨n, t + 500⟩], some n, f⟩ =
        ⟨n + es.length + 1, [⟨n + es.length, es.getLastD t + 500⟩],
          some (n + es.length), f⟩
  | [], t, n, f, _ => by simp
  | e :: es', t, n, f, hchain => by
    have hrel : burstRel t e := (List.chain'_cons.mp hchain).1
    have hchain' : List.Chain' burstRel (e :: es') := (List.chain'_cons.mp hchain).2
    have hstep : stepEvent ⟨n + 1, [⟨n, t + 500⟩], some n, f⟩ e =
        ⟨(n + 1) + 1, [⟨n + 1, e + 500⟩], some (n + 1), f⟩ := by
      have hlt : ¬ t + 500 ≤ e := by
        have := hrel.2
        omega
      simp [stepEvent, fireDue, onChange, hlt]
    rw [List.foldl_cons, hstep, burst_foldl es' e (n + 1) f hchain']
    have harith : n + 1 + es'.length = n + (es'.length + 1) := by omega
    simp only [List.length_cons, List.getLastD_cons]
    rw [harith]

/-- The last element of a non-empty list does not depend on the fallback
of `getD` once the head is prepended. -/
theorem getLast?_getD_cons (es : List Nat) :
    ∀ e d : Nat, (e :: es).getLast?.getD d = es.getLast?.getD e := by
  induction es with
  | nil =>
    intro e d
    simp
  | cons x xs ih =>
    intro e d
    rw [List.getLast?_cons_cons, ih x d, ih x e]

/-- C2: for every non-empty burst of raw change events in which each event
arrives within less than the 500 ms debounce window of its predecessor,
no rebuild fires during the burst, and once the window elapses with no
further event exactly one rebuild fires, 500 ms after the last event;
moreover after any event sequence whatsoever at most one debounce timer
is pending (scheduling cancels the previous timer). -/
theorem c2_debounce_coalesces (events : List Nat) (hne : events ≠ [])
    (hchain : List.Chain' burstRel events) :
    (runEvents events).fired = [] ∧
    (flushTimers (runEvents events)).fired = [events.getLastD 0 + 500] ∧
    (∀ es : List Nat, (runEvents es).pending.length ≤ 1) := by
  obtain ⟨e, es, rfl⟩ : ∃ e es, events = e :: es := by
    cases events with
    | nil => exact absurd rfl hne
    | cons e es => exact ⟨e, es, rfl⟩
  have hfirst : stepEvent initWatch e = ⟨1, [⟨0, e + 500⟩], some 0, []⟩ := by
    simp [stepEvent, fireDue, onChange, initWatch]
  have hrun : runEvents (e :: es) =
      ⟨es.length + 1, [⟨es.length, es.getLastD e + 500⟩], some es.length, []⟩ := by
    unfold runEvents
    rw [List.foldl_cons, hfirst]
    simpa using burst_foldl es e 0 [] hchain
  refine ⟨by simp [hrun], ?_, fun es' => (watchInv_runEvents es').1⟩
  rw [hrun]
  simp [flushTimers]
  exact (getLast?_getD_cons es e 0).symm

/-- Witness for C2: three change events 100 ms apart — one rebuild, fired
500 ms after the last event (at 700), none during the burst. -/
theorem c2_witness :
    ([0, 100, 200] : List Nat) ≠ [] ∧
    List.Chain' burstRel [0, 100, 200] ∧
    ((runEvents [0, 100, 200]).fired = [] ∧
      (flushTimers (runEvents [0, 100, 200])).fired =
        [([0, 100, 200] : List Nat).getLastD 0 + 500] ∧
      (∀ es : List Nat, (runEvents es).pending.length ≤ 1)) :=
  ⟨by decide, by norm_num [List.chain'_cons, burstRel],
    c2_debounce_coalesces [0, 100, 200] (by decide)
      (by norm_num [List.chain'_cons, burstRel])⟩

/-! ## Session controller claims -/

/-- Counterexample to C6 as stated: a termination signal arriving while
the controller is in the initial-build phase does NOT run `cleanUp` — the
SIGINT/SIGTERM handlers are only registered by the last two statements of
`runDev`, after the watcher is created, so before that the default signal
disposition terminates the process without the cleanup actions. -/
theorem c6_counterexample :
    onTermSignal Phase.building ≠ SignalResponse.runsCleanUp := by
  decide

/-- C6 amended: once `runDev` has completed (the handlers are registered,
i.e. from the `running` phase on), a termination signal runs `cleanUp`,
which terminates the native process handle if present, then terminates the
Vite process, then closes the watcher, then exits, in that order; in every
earlier phase the signal causes default termination without cleanup. -/
theorem c6_signal_cleanup_when_running (env : DevEnv) (s : DevState)
    (h : (runDev env).1 = Except.ok s) :
    onTermSignal Phase.running = SignalResponse.runsCleanUp ∧
    (∀ p : Phase, p ≠ Phase.running →
      onTermSignal p = SignalResponse.defaultTermination) ∧
    (∀ p, s.cpp.cppProcess = some p →
      cleanUp noThrowEnv s =
        ([Action.killCpp p, Action.killVite env.vitePid,
          Action.closeWatcher env.watcherId, Action.exitProc], none)) ∧
    (s.cpp.cppProcess = none →
      cleanUp noThrowEnv s =
        ([Action.killVite env.vitePid, Action.closeWatcher env.watcherId,
          Action.exitProc], none)) := by
  by_cases hv : env.viteReady = true
  · simp only [runDev, hv, if_true] at h
    rw [Except.ok.injEq] at h
    subst h
    refine ⟨rfl, ?_, ?_, ?_⟩
    · intro p hp
      cases p <;> first
        | rfl
        | exact absurd rfl hp
    · intro p hp
      simp only at hp
      simp [cleanUp, noThrowEnv, hp]
    · intro hp
      simp only at hp
      simp [cleanUp, noThrowEnv, hp]
  · simp [runDev, hv] at h

/-- Witness for the amended C6 at a concrete successful session. -/
theorem c6_witness :
    (runDev ⟨true, 1, 2, ⟨fun _ => 0, Platform.other, 4, false⟩,
      ⟨true, true⟩⟩).1 = Except.ok ⟨some 1, some 2, ⟨some 4, false⟩, true⟩ ∧
    (onTermSignal Phase.running = SignalResponse.runsCleanUp ∧
      (∀ p : Phase, p ≠ Phase.running →
        onTermSignal p = SignalResponse.defaultTermination) ∧
      (∀ p, (DevState.mk (some 1) (some 2) ⟨some 4, false⟩ true).cpp.cppProcess =
          some p →
        cleanUp noThrowEnv ⟨some 1, some 2, ⟨some 4, false⟩, true⟩ =
          ([Action.killCpp p, Action.killVite 1, Action.closeWatcher 2,
            Action.exitProc], none)) ∧
      ((DevState.mk (some 1) (some 2) ⟨some 4, false⟩ true).cpp.cppProcess = none →
        cleanUp noThrowEnv ⟨some 1, some 2, ⟨some 4, false⟩, true⟩ =
          ([Action.killVite 1, Action.closeWatcher 2, Action.exitProc], none))) :=
  ⟨rfl,
    c6_signal_cleanup_when_running
      ⟨true, 1, 2, ⟨fun _ => 0, Platform.other, 4, false⟩, ⟨true, true⟩⟩
      ⟨some 1, some 2, ⟨some 4, false⟩, true⟩ rfl⟩

/-- C7: when the Vite server does not become reachable within the 30 s
`waitOn` timeout, `runDev` aborts with the fatal startup error right at
the `await`: no build step has run, the native executable is never
spawned, the watcher is never started, and the signal handlers (the mark
of reaching `Running`) are never registered. -/
theorem c7_server_timeout_aborts (env : DevEnv) (h : env.viteReady = false) :
    (runDev env).1 = Except.error StartupError.viteTimeout ∧
    buildStepsOf (runDev env).2 = [] ∧
    (∀ parts, Action.spawnExe parts ∉ (runDev env).2) ∧
    (∀ w, Action.startWatcher w ∉ (runDev env).2) ∧
    Action.registerHandlers ∉ (runDev env).2 := by
  refine ⟨?_, ?_, ?_, ?_, ?_⟩ <;> simp [runDev, h, buildStepsOf]

/-- Witness for C7 at a concrete session whose server never comes up. -/
theorem c7_witness :
    (DevEnv.mk false 1 2 ⟨fun _ => 0, Platform.other, 4, false⟩
      ⟨true, true⟩).viteReady = false ∧
    ((runDev ⟨false, 1, 2, ⟨fun _ => 0, Platform.other, 4, false⟩, ⟨true, true⟩⟩).1 =
        Except.error StartupError.viteTimeout ∧
      buildStepsOf (runDev ⟨false, 1, 2, ⟨fun _ => 0, Platform.other, 4, false⟩,
        ⟨true, true⟩⟩).2 = [] ∧
      (∀ parts, Action.spawnExe parts ∉
        (runDev ⟨false, 1, 2, ⟨fun _ => 0, Platform.other, 4, false⟩,
          ⟨true, true⟩⟩).2) ∧
      (∀ w, Action.startWatcher w ∉
        (runDev ⟨false, 1, 2, ⟨fun _ => 0, Platform.other, 4, false⟩,
          ⟨true, true⟩⟩).2) ∧
      Action.registerHandlers ∉
        (runDev ⟨false, 1, 2, ⟨fun _ => 0, Platform.other, 4, false⟩,
          ⟨true, true⟩⟩).2) :=
  ⟨rfl, c7_server_timeout_aborts
    ⟨false, 1, 2, ⟨fun _ => 0, Platform.other, 4, false⟩, ⟨true, true⟩⟩ rfl⟩

/-- C8 exhibit (code bug): a launch failure crashes the controller. With a
successful build but a native executable that cannot be started (`spawn`
delivers an asynchronous `'error'` event), the source attaches no
`'error'` listener to `cppProcess`, so the event is thrown as an uncaught
exception and the controller process dies — the session does not stay
alive as claimed. -/
theorem c8_launch_failure_crashes_controller :
    cppErrorListenerAttached = false ∧
    (buildAndStartCpp ⟨fun _ => 0, Platform.other, 4, true⟩ ⟨true, true⟩
      ⟨none, false⟩).2.2 = InvocationResult.crashedUnhandledErrorEvent := by
  decide

/-- Counterexample to C9 as stated: `cleanUp` has no exception handling,
so if the first cleanup call (`cppProcess.kill()`) threw, the Vite kill,
the watcher close and the exit would all be skipped — an error in one
action DOES prevent attempting the others. -/
theorem c9_counterexample :
    (cleanUp ⟨true, false, false, true, true⟩
      ⟨some 1, some 2, ⟨some 3, false⟩, true⟩).2 ≠ none ∧
    Action.killVite 1 ∉ (cleanUp ⟨true, false, false, true, true⟩
      ⟨some 1, some 2, ⟨some 3, false⟩, true⟩).1 ∧
    Action.closeWatcher 2 ∉ (cleanUp ⟨true, false, false, true, true⟩
      ⟨some 1, some 2, ⟨some 3, false⟩, true⟩).1 ∧
    Action.exitProc ∉ (cleanUp ⟨true, false, false, true, true⟩
      ⟨some 1, some 2, ⟨some 3, false⟩, true⟩).1 := by
  decide

/-- C9 amended: the three cleanup actions run unconditionally in sequence
only because the real primitives do not throw — `kill` reports failed
signal delivery through its discarded boolean result and the watcher close
is asynchronous. Under those no-throw semantics, and whatever the delivery
outcomes, all three actions are attempted and `process.exit()` is reached;
but there is no exception handling, so a throwing primitive would abort
the remainder (see the counterexample). -/
theorem c9_cleanup_best_effort (cenv : CleanupEnv) (s : DevState) (vp w : Nat)
    (hv : s.viteProcess = some vp) (hw : s.watcher = some w)
    (hnt : cenv.killCppThrows = false ∧ cenv.killViteThrows = false ∧
      cenv.watcherCloseThrows = false) :
    (cleanUp cenv s).2 = none ∧
    Action.killVite vp ∈ (cleanUp cenv s).1 ∧
    Action.closeWatcher w ∈ (cleanUp cenv s).1 ∧
    Action.exitProc ∈ (cleanUp cenv s).1 ∧
    (∀ p, s.cpp.cppProcess = some p → Action.killCpp p ∈ (cleanUp cenv s).1) := by
  obtain ⟨h1, h2, h3⟩ := hnt
  cases hc : s.cpp.cppProcess <;>
    simp [cleanUp, hv, hw, hc, h1, h2, h3]

/-- Witness for the amended C9, with all handles present and delivery
flags at their defaults. -/
theorem c9_witness :
    (DevState.mk (some 1) (some 2) ⟨some 3, false⟩ true).viteProcess = some 1 ∧
    (DevState.mk (some 1) (some 2) ⟨some 3, false⟩ true).watcher = some 2 ∧
    (noThrowEnv.killCppThrows = false ∧ noThrowEnv.killViteThrows = false ∧
      noThrowEnv.watcherCloseThrows = false) ∧
    ((cleanUp noThrowEnv ⟨some 1, some 2, ⟨some 3, false⟩, true⟩).2 = none ∧
      Action.killVite 1 ∈
        (cleanUp noThrowEnv ⟨some 1, some 2, ⟨some 3, false⟩, true⟩).1 ∧
      Action.closeWatcher 2 ∈
        (cleanUp noThrowEnv ⟨some 1, some 2, ⟨some 3, false⟩, true⟩).1 ∧
      Action.exitProc ∈
        (cleanUp noThrowEnv ⟨some 1, some 2, ⟨some 3, false⟩, true⟩).1 ∧
      (∀ p, (DevState.mk (some 1) (some 2) ⟨some 3, false⟩ true).cpp.cppProcess =
          some p →
        Action.killCpp p ∈
          (cleanUp noThrowEnv ⟨some 1, some 2, ⟨some 3, false⟩, true⟩).1)) :=
  ⟨rfl, rfl, ⟨rfl, rfl, rfl⟩,
    c9_cleanup_best_effort noThrowEnv ⟨some 1, some 2, ⟨some 3, false⟩, true⟩
      1 2 rfl rfl ⟨rfl, rfl, rfl⟩⟩

/-- C10: whenever `runDev` completes (which is the only way the
SIGINT/SIGTERM handlers get registered, as they are its last statements),
`viteProcess` and `watcher` are both non-null, so the unguarded
`viteProcess.kill()` and `watcher.close()` in `cleanUp` never dereference
null — whatever the primitives do, `cleanUp` never raises the null
`TypeError` (only `cppProcess`, which can still be null, has — and
needs — the `if` guard). -/
theorem c10_cleanup_null_safety (env : DevEnv) (cenv : CleanupEnv) (s : DevState)
    (h : (runDev env).1 = Except.ok s) :
    s.viteProcess = some env.vitePid ∧
    s.watcher = some env.watcherId ∧
    s.handlersRegistered = true ∧
    (cleanUp cenv s).2 ≠ some JsError.typeErrorNull := by
  by_cases hv : env.viteReady = true
  · simp only [runDev, hv, if_true] at h
    rw [Except.ok.injEq] at h
    subst h
    refine ⟨rfl, rfl, rfl, ?_⟩
    obtain ⟨k1, k2, k3, d1, d2⟩ := cenv
    cases hc : (buildAndStartCpp env.buildEnv env.opts ⟨none, true⟩).1.cppProcess <;>
      cases k1 <;> cases k2 <;> cases k3 <;>
        simp [cleanUp, hc]
  · simp [runDev, hv] at h

/-- Witness for C10 at a concrete successful session, with cleanup
primitives that all throw (so the no-null-dereference conclusion does not
ride on the no-throw assumption). -/
theorem c10_witness :
    (runDev ⟨true, 1, 2, ⟨fun _ => 0, Platform.other, 4, false⟩,
      ⟨true, true⟩⟩).1 = Except.ok ⟨some 1, some 2, ⟨some 4, false⟩, true⟩ ∧
    ((DevState.mk (some 1) (some 2) ⟨some 4, false⟩ true).viteProcess = some 1 ∧
      (DevState.mk (some 1) (some 2) ⟨some 4, false⟩ true).watcher = some 2 ∧
      (DevState.mk (some 1) (some 2) ⟨some 4, false⟩ true).handlersRegistered = true ∧
      (cleanUp ⟨true, true, true, false, false⟩
        ⟨some 1, some 2, ⟨some 4, false⟩, true⟩).2 ≠ some JsError.typeErrorNull) :=
  ⟨rfl,
    c10_cleanup_null_safety
      ⟨true, 1, 2, ⟨fun _ => 0, Platform.other, 4, false⟩, ⟨true, true⟩⟩
      ⟨true, true, true, false, false⟩
      ⟨some 1, some 2, ⟨some 4, false⟩, true⟩ rfl⟩

end Celaris
